import Mathlib

/-!
Verification of the core of the stair-climber game (src/script.js): world
state, platform generator, difficulty scaling, physics/collision loop.
Machine numbers are modelled as exact rationals; the two calls to
Math.random() per spawn and the resolved input direction are passed in as
explicit parameters.
-/

namespace StairClimber

/-- GRAVITY = 0.25 (script.js line 5). -/
def GRAVITY : ℚ := 1/4

/-- PLAYER_SPEED = 3 (line 6). -/
def PLAYER_SPEED : ℚ := 3

/-- PLATFORM_WIDTH = 100 (line 7). -/
def PLATFORM_WIDTH : ℚ := 100

/-- PLATFORM_HEIGHT = 15 (line 8). -/
def PLATFORM_HEIGHT : ℚ := 15

/-- MIN_Y_GAP = 80 (line 9). -/
def MIN_Y_GAP : ℚ := 80

/-- INITIAL_MAX_Y_GAP = 100 (line 10). -/
def INITIAL_MAX_Y_GAP : ℚ := 100

/-- INITIAL_SPEED = 1 (line 11). -/
def INITIAL_SPEED : ℚ := 1

/-- GAME_SPEED_INCREMENT = 0.1 (line 12). -/
def GAME_SPEED_INCREMENT : ℚ := 1/10

/-- MAX_Y_GAP_INCREMENT = 5 (line 13). -/
def MAX_Y_GAP_INCREMENT : ℚ := 5

/-- DIFFICULTY_INTERVAL = 10 (line 14). -/
def DIFFICULTY_INTERVAL : ℕ := 10

/-- TYPE_PROBABILITIES.NORMAL = 0.95 (line 23). -/
def TYPE_PROBABILITIES_NORMAL : ℚ := 95/100

/-- The platform variant tag (PLATFORM_TYPES, lines 17-20).  The spec calls
the SPIKE variant HAZARD. -/
inductive PlatformType where
  | NORMAL : PlatformType
  | SPIKE : PlatformType
deriving DecidableEq, Repr

/-- The player object (lines 36-45); the color and the never-used dx field
are omitted as render-only/dead data. -/
structure Player where
  x : ℚ
  y : ℚ
  width : ℚ
  height : ℚ
  dy : ℚ
  onGround : Bool
deriving DecidableEq, Repr

/-- A platform descriptor (as pushed at lines 107 and 156-163); the color
is derived from the type and omitted. -/
structure Platform where
  x : ℚ
  y : ℚ
  width : ℚ
  height : ℚ
  type : PlatformType
deriving DecidableEq, Repr

/-- The aggregate world state: the top-level mutable variables of
script.js (lines 28-48). -/
structure GameState where
  player : Player
  platforms : List Platform
  score : ℕ
  isGameOver : Bool
  currentPlatformSpeed : ℚ
  currentMaxYGap : ℚ
  nextSpawnDistance : ℚ
  consecutiveSpikes : ℕ
deriving DecidableEq, Repr

/-- The state of the module-level variables at script load (lines 28-48),
before the initial resetGame() call at line 293. -/
def initState : GameState :=
  { player := { x := 200, y := 100, width := 20, height := 20, dy := 0, onGround := false }
    platforms := []
    score := 0
    isGameOver := false
    currentPlatformSpeed := INITIAL_SPEED
    currentMaxYGap := INITIAL_MAX_Y_GAP
    nextSpawnDistance := 100
    consecutiveSpikes := 0 }

/-- resetGame (lines 93-108): reinitializes player position/velocity,
score, flags, difficulty parameters and rebuilds the platform list to the
single seed platform.  The player's width/height/onGround are not touched
by the source and are preserved. -/
def resetGame (s : GameState) : GameState :=
  { s with
    player := { s.player with x := 200, y := 100, dy := 0 }
    score := 0
    isGameOver := false
    currentPlatformSpeed := INITIAL_SPEED
    currentMaxYGap := INITIAL_MAX_Y_GAP
    nextSpawnDistance := 100
    consecutiveSpikes := 0
    platforms := [{ x := 150, y := 500, width := PLATFORM_WIDTH, height := PLATFORM_HEIGHT,
                    type := PlatformType.NORMAL }] }

/-- The body of spawnPlatform once the spawn trigger fired (lines 116-176).
r1 is the Math.random() draw for the x position, r2 the draw for the type,
r3 the draw for the next spawn distance.  W and H are canvas.width and
canvas.height. -/
def spawnBody (W H r1 r2 r3 : ℚ) (s : GameState) : GameState :=
  let minX : ℚ := match s.platforms.getLast? with
    | none => 0
    | some lp => max 0 (lp.x - 250)
  let maxX : ℚ := match s.platforms.getLast? with
    | none => W - PLATFORM_WIDTH
    | some lp => min (W - PLATFORM_WIDTH) (lp.x + PLATFORM_WIDTH + 250)
  let x := r1 * (maxX - minX) + minX
  let ptype := if 1 ≤ s.consecutiveSpikes then PlatformType.NORMAL
    else if TYPE_PROBABILITIES_NORMAL < r2 then PlatformType.SPIKE
    else PlatformType.NORMAL
  let consec := if ptype = PlatformType.SPIKE then s.consecutiveSpikes + 1 else 0
  let score2 := s.score + 1
  let speed2 := if 0 < score2 ∧ score2 % DIFFICULTY_INTERVAL = 0
    then s.currentPlatformSpeed + GAME_SPEED_INCREMENT else s.currentPlatformSpeed
  let gap2 := if 0 < score2 ∧ score2 % DIFFICULTY_INTERVAL = 0
    then s.currentMaxYGap + MAX_Y_GAP_INCREMENT else s.currentMaxYGap
  { s with
    platforms := s.platforms ++
      [{ x := x, y := H, width := PLATFORM_WIDTH, height := PLATFORM_HEIGHT, type := ptype }]
    score := score2
    currentPlatformSpeed := speed2
    currentMaxYGap := gap2
    nextSpawnDistance := MIN_Y_GAP + r3 * (gap2 - MIN_Y_GAP)
    consecutiveSpikes := consec }

/-- spawnPlatform (lines 110-178): spawns when no platform exists yet or
the last platform has scrolled up more than nextSpawnDistance from the
bottom edge. -/
def spawnPlatform (W H r1 r2 r3 : ℚ) (s : GameState) : GameState :=
  match s.platforms.getLast? with
  | none => spawnBody W H r1 r2 r3 s
  | some lp =>
      if H - lp.y > s.nextSpawnDistance then spawnBody W H r1 r2 r3 s else s

/-- The landing-overlap test of the collision detection (lines 229-235),
taken verbatim from the source: falling, bottom edge at or past the
platform's top, bottom edge within p.y + p.height + dy + 5, and strict
horizontal overlap. -/
def overlap (pl : Player) (p : Platform) : Prop :=
  pl.dy > 0 ∧
  pl.y + pl.height ≥ p.y ∧
  pl.y + pl.height ≤ p.y + p.height + pl.dy + 5 ∧
  pl.x + pl.width > p.x ∧
  pl.x < p.x + p.width

instance (pl : Player) (p : Platform) : Decidable (overlap pl p) :=
  inferInstanceAs (Decidable (pl.dy > 0 ∧
    pl.y + pl.height ≥ p.y ∧
    pl.y + pl.height ≤ p.y + p.height + pl.dy + 5 ∧
    pl.x + pl.width > p.x ∧
    pl.x < p.x + p.width))

/-- The collision resolution branch (lines 229-243): on overlap with a
SPIKE set the game-over flag, otherwise zero dy, snap the bottom edge onto
the platform's top edge and set onGround. -/
def resolveCollision (pl : Player) (go : Bool) (p : Platform) : Player × Bool :=
  if overlap pl p then
    if p.type = PlatformType.SPIKE then (pl, true)
    else ({ pl with dy := 0, y := p.y - pl.height, onGround := true }, go)
  else (pl, go)

/-- The per-tick scroll of one platform (line 220). -/
def scrollP (speed : ℚ) (p : Platform) : Platform :=
  { p with y := p.y - speed }

/-- The keep condition of the cull (negation of the removal test at
line 223). -/
def keepPlat (p : Platform) : Bool :=
  decide (¬ (p.y + p.height < 0))

/-- The platform loop of update (lines 216-249).  The JS loop walks the
array from the last index down to 0, so the head of the list is processed
last; each iteration scrolls the platform, either removes it (skipping the
rest of the body via continue) or resolves the collision and then runs the
out-of-bounds game-over check.  Returns the final (player, gameOver) pair
and the surviving platform list in original order. -/
def platLoop (H speed : ℚ) (st : Player × Bool) : List Platform → (Player × Bool) × List Platform
  | [] => (st, [])
  | p :: ps =>
      let r := platLoop H speed st ps
      let p2 := scrollP speed p
      if p2.y + p2.height < 0 then r
      else
        let st1 := resolveCollision r.1.1 r.1.2 p2
        let go2 := if st1.1.y < 0 ∨ st1.1.y > H then true else st1.2
        ((st1.1, go2), p2 :: r.2)

/-- The horizontal-movement, clamping and gravity steps of update
(lines 201-210).  ml/mr are the resolved moveLeft/moveRight booleans
(after the touch logic of lines 184-199). -/
def movePhase (W : ℚ) (ml mr : Bool) (s : GameState) : GameState :=
  let px0 := if ml then s.player.x - PLAYER_SPEED else s.player.x
  let px1 := if mr then px0 + PLAYER_SPEED else px0
  let px2 := if px1 < 0 then 0 else px1
  let px3 := if px2 + s.player.width > W then W - s.player.width else px2
  let dy1 := s.player.dy + GRAVITY
  let y1 := s.player.y + dy1
  { s with player := { s.player with x := px3, y := y1, dy := dy1 } }

/-- The grounded-flag reset and platform loop of update (lines 215-249). -/
def loopPhase (H : ℚ) (s : GameState) : GameState :=
  let res := platLoop H s.currentPlatformSpeed
    ({ s.player with onGround := false }, s.isGameOver) s.platforms
  { s with player := res.1.1, isGameOver := res.1.2, platforms := res.2 }

/-- update (lines 180-251): the per-frame tick, no-op when the game-over
flag is set, otherwise movement and gravity, then the spawn attempt, then
the platform loop; r1 r2 r3 feed spawnPlatform. -/
def tick (W H : ℚ) (ml mr : Bool) (r1 r2 r3 : ℚ) (s : GameState) : GameState :=
  if s.isGameOver then s
  else loopPhase H (spawnPlatform W H r1 r2 r3 (movePhase W ml mr s))

/-- States reachable from script load by the initial resetGame() call
followed by any sequence of resetGame and update calls, for a fixed canvas
of width W and height H. -/
inductive Reachable (W H : ℚ) : GameState → Prop where
  | start : Reachable W H (resetGame initState)
  | reset {s : GameState} : Reachable W H s → Reachable W H (resetGame s)
  | step {s : GameState} (ml mr : Bool) (r1 r2 r3 : ℚ) :
      Reachable W H s → Reachable W H (tick W H ml mr r1 r2 r3 s)

/-- Claim C1's reading of the overlap test: the bottom edge may exceed the
platform's TOP edge by at most dy + 5 (tolerance constant 5 alone). -/
def overlapClaimed (pl : Player) (p : Platform) : Prop :=
  pl.dy > 0 ∧
  pl.y + pl.height ≥ p.y ∧
  pl.y + pl.height ≤ p.y + pl.dy + 5 ∧
  pl.x + pl.width > p.x ∧
  pl.x < p.x + p.width

instance (pl : Player) (p : Platform) : Decidable (overlapClaimed pl p) :=
  inferInstanceAs (Decidable (pl.dy > 0 ∧
    pl.y + pl.height ≥ p.y ∧
    pl.y + pl.height ≤ p.y + pl.dy + 5 ∧
    pl.x + pl.width > p.x ∧
    pl.x < p.x + p.width))

/-- C1 counterexample: a concrete falling player whose bottom edge exceeds
the platform's top edge by 10, with dy = 2: the code's overlap test fires
(10 ≤ p.height + dy + 5 = 22) but the claimed bound dy + 5 = 7 does not
allow it, so the code condition and the claimed condition differ. -/
theorem collision_trigger_claimed_counterexample :
    ¬ (overlap { x := 0, y := 90, width := 20, height := 20, dy := 2, onGround := false }
         { x := 0, y := 100, width := 100, height := 15, type := PlatformType.NORMAL } ↔
       overlapClaimed { x := 0, y := 90, width := 20, height := 20, dy := 2, onGround := false }
         { x := 0, y := 100, width := 100, height := 15, type := PlatformType.NORMAL }) := by
  norm_num [overlap, overlapClaimed]

/-- C1 (amended): the collision-resolution branch of the tick fires exactly
when the player is moving downward (dy > 0), the bottom edge has reached
the platform's top edge, the bottom edge exceeds the platform's top edge by
no more than (platform height + current dy + the tolerance constant 5), and
the horizontal spans overlap strictly on both sides. -/
theorem collision_trigger_condition (pl : Player) (p : Platform) (go : Bool) :
    ((pl.dy > 0 ∧ pl.y + pl.height ≥ p.y ∧
        pl.y + pl.height ≤ p.y + p.height + pl.dy + 5 ∧
        pl.x + pl.width > p.x ∧ pl.x < p.x + p.width) →
      resolveCollision pl go p =
        (if p.type = PlatformType.SPIKE then (pl, true)
         else ({ pl with dy := 0, y := p.y - pl.height, onGround := true }, go))) ∧
    (¬ (pl.dy > 0 ∧ pl.y + pl.height ≥ p.y ∧
        pl.y + pl.height ≤ p.y + p.height + pl.dy + 5 ∧
        pl.x + pl.width > p.x ∧ pl.x < p.x + p.width) →
      resolveCollision pl go p = (pl, go)) := by
  constructor
  · intro h
    unfold resolveCollision
    rw [if_pos (show overlap pl p from h)]
  · intro h
    unfold resolveCollision
    rw [if_neg (show ¬ overlap pl p from h)]

/-- Witness for C1's amended theorem at a concrete landing on a NORMAL
platform. -/
theorem collision_trigger_condition_witness :
    resolveCollision { x := 0, y := 90, width := 20, height := 20, dy := 2, onGround := false }
      false { x := 0, y := 100, width := 100, height := 15, type := PlatformType.NORMAL } =
    ({ x := 0, y := 80, width := 20, height := 20, dy := 0, onGround := true }, false) := by
  have h := (collision_trigger_condition
    { x := 0, y := 90, width := 20, height := 20, dy := 2, onGround := false }
    { x := 0, y := 100, width := 100, height := 15, type := PlatformType.NORMAL } false).1
    (by norm_num)
  norm_num at h
  exact h

/-- C2: whenever a falling player's bottom edge sits exactly on a NORMAL
platform's top edge with strict horizontal overlap, collision resolution
zeroes dy, snaps the player's y to platform.y − player.height, and sets the
grounded flag. -/
theorem normal_landing_snaps (pl : Player) (p : Platform) (go : Bool)
    (hdy : 0 < pl.dy) (hbot : pl.y + pl.height = p.y)
    (hx1 : pl.x + pl.width > p.x) (hx2 : pl.x < p.x + p.width)
    (hh : p.height = PLATFORM_HEIGHT) (ht : p.type = PlatformType.NORMAL) :
    (resolveCollision pl go p).1.dy = 0 ∧
    (resolveCollision pl go p).1.y = p.y - pl.height ∧
    (resolveCollision pl go p).1.onGround = true := by
  have hov : overlap pl p := by
    refine ⟨hdy, le_of_eq hbot.symm, ?_, hx1, hx2⟩
    rw [hbot, hh]
    unfold PLATFORM_HEIGHT
    linarith
  unfold resolveCollision
  rw [if_pos hov, if_neg (by rw [ht]; exact fun hc => PlatformType.noConfusion hc)]
  exact ⟨rfl, rfl, rfl⟩

/-- Witness for C2: falling with dy = 2, bottom edge exactly at y = 100 top
edge of the seed-sized NORMAL platform. -/
theorem normal_landing_snaps_witness :
    (resolveCollision { x := 0, y := 80, width := 20, height := 20, dy := 2, onGround := false }
      false { x := 0, y := 100, width := 100, height := 15, type := PlatformType.NORMAL }).1.dy = 0 ∧
    (resolveCollision { x := 0, y := 80, width := 20, height := 20, dy := 2, onGround := false }
      false { x := 0, y := 100, width := 100, height := 15, type := PlatformType.NORMAL }).1.y
      = 100 - 20 ∧
    (resolveCollision { x := 0, y := 80, width := 20, height := 20, dy := 2, onGround := false }
      false { x := 0, y := 100, width := 100, height := 15, type := PlatformType.NORMAL }).1.onGround
      = true :=
  normal_landing_snaps _ _ _ (by norm_num) (by norm_num) (by norm_num) (by norm_num)
    (by norm_num [PLATFORM_HEIGHT]) rfl

/-- C3: evaluating the tick at a state where the only platform is culled
this frame: the player ends at y = −39/4 < 0 and the platform list ends
empty, yet the game-over flag stays false, because the out-of-bounds check
sits inside the platform loop and is skipped by the removal path. -/
theorem terminal_check_skipped_on_empty_cull :
    (tick 400 600 false false 0 0 0
      { player := { x := 200, y := -10, width := 20, height := 20, dy := 0, onGround := false }
        platforms := [{ x := 150, y := 4, width := 100, height := 15,
                        type := PlatformType.NORMAL }]
        score := 0, isGameOver := false, currentPlatformSpeed := 20,
        currentMaxYGap := 100, nextSpawnDistance := 1000,
        consecutiveSpikes := 0 }).player.y < 0 ∧
    (tick 400 600 false false 0 0 0
      { player := { x := 200, y := -10, width := 20, height := 20, dy := 0, onGround := false }
        platforms := [{ x := 150, y := 4, width := 100, height := 15,
                        type := PlatformType.NORMAL }]
        score := 0, isGameOver := false, currentPlatformSpeed := 20,
        currentMaxYGap := 100, nextSpawnDistance := 1000,
        consecutiveSpikes := 0 }).isGameOver = false ∧
    (tick 400 600 false false 0 0 0
      { player := { x := 200, y := -10, width := 20, height := 20, dy := 0, onGround := false }
        platforms := [{ x := 150, y := 4, width := 100, height := 15,
                        type := PlatformType.NORMAL }]
        score := 0, isGameOver := false, currentPlatformSpeed := 20,
        currentMaxYGap := 100, nextSpawnDistance := 1000,
        consecutiveSpikes := 0 }).platforms = [] := by
  norm_num [tick, movePhase, loopPhase, spawnPlatform, spawnBody, platLoop, scrollP,
    resolveCollision, overlap, keepPlat, GRAVITY, PLAYER_SPEED, PLATFORM_WIDTH,
    PLATFORM_HEIGHT, MIN_Y_GAP, INITIAL_MAX_Y_GAP, INITIAL_SPEED, GAME_SPEED_INCREMENT,
    MAX_Y_GAP_INCREMENT, DIFFICULTY_INTERVAL, TYPE_PROBABILITIES_NORMAL, List.getLast?]

/-- C4: once the game-over flag is set, the tick is a no-op on the entire
world state, for any input direction and any random draws. -/
theorem tick_noop_after_game_over (W H : ℚ) (ml mr : Bool) (r1 r2 r3 : ℚ)
    (s : GameState) (h : s.isGameOver = true) :
    tick W H ml mr r1 r2 r3 s = s := by
  simp [tick, h]

/-- Witness for C4 at a concrete terminal state. -/
theorem tick_noop_after_game_over_witness :
    tick 400 600 true false (1/2) (1/2) (1/2)
      { player := { x := 200, y := 100, width := 20, height := 20, dy := 3, onGround := false }
        platforms := [], score := 7, isGameOver := true, currentPlatformSpeed := 2,
        currentMaxYGap := 110, nextSpawnDistance := 90, consecutiveSpikes := 1 } =
      { player := { x := 200, y := 100, width := 20, height := 20, dy := 3, onGround := false }
        platforms := [], score := 7, isGameOver := true, currentPlatformSpeed := 2,
        currentMaxYGap := 110, nextSpawnDistance := 90, consecutiveSpikes := 1 } :=
  tick_noop_after_game_over 400 600 true false (1/2) (1/2) (1/2) _ rfl

/-- C8: resetGame rebuilds the world to exactly one NORMAL platform at
(150, 500) of size 100×15, score 0, game-over false, initial scroll speed
and max gap, and a zero consecutive-hazard counter. -/
theorem reset_initial_state (s : GameState) :
    (resetGame s).platforms =
      [{ x := 150, y := 500, width := 100, height := 15, type := PlatformType.NORMAL }] ∧
    (resetGame s).score = 0 ∧
    (resetGame s).isGameOver = false ∧
    (resetGame s).currentPlatformSpeed = INITIAL_SPEED ∧
    (resetGame s).currentMaxYGap = INITIAL_MAX_Y_GAP ∧
    (resetGame s).consecutiveSpikes = 0 :=
  ⟨rfl, rfl, rfl, rfl, rfl, rfl⟩

/-- C9: a landing overlap with a SPIKE platform sets the game-over flag and
leaves the player record (position, dy, grounded flag) untouched by the
branch. -/
theorem hazard_landing_sets_game_over (pl : Player) (p : Platform) (go : Bool)
    (hov : overlap pl p) (ht : p.type = PlatformType.SPIKE) :
    resolveCollision pl go p = (pl, true) := by
  unfold resolveCollision
  rw [if_pos hov, if_pos ht]

/-- Witness for C9 at a concrete overlap with a SPIKE platform. -/
theorem hazard_landing_sets_game_over_witness :
    resolveCollision { x := 0, y := 90, width := 20, height := 20, dy := 2, onGround := false }
      false { x := 0, y := 100, width := 100, height := 15, type := PlatformType.SPIKE } =
    ({ x := 0, y := 90, width := 20, height := 20, dy := 2, onGround := false }, true) :=
  hazard_landing_sets_game_over _ _ _ (by norm_num [overlap]) rfl

/-- C5: whenever the generator actually appends a platform, its x lies in
[max 0 (prev.x − 250), min (W − platformWidth) (prev.x + platformWidth + 250)]
when a previous platform exists, and in any case in [0, W − platformWidth],
provided the random draw is in [0, 1), the screen is at least one platform
wide, and the previous platform (if any) was itself in the valid range. -/
theorem spawn_x_within_reach (W H r1 r2 r3 : ℚ) (s : GameState)
    (h0 : 0 ≤ r1) (h1 : r1 < 1) (hW : PLATFORM_WIDTH ≤ W)
    (hprev : ∀ prev, s.platforms.getLast? = some prev →
      0 ≤ prev.x ∧ prev.x ≤ W - PLATFORM_WIDTH) :
    ∀ np : Platform, (spawnPlatform W H r1 r2 r3 s).platforms = s.platforms ++ [np] →
      (0 ≤ np.x ∧ np.x ≤ W - PLATFORM_WIDTH) ∧
      (∀ prev, s.platforms.getLast? = some prev →
        max 0 (prev.x - 250) ≤ np.x ∧
          np.x ≤ min (W - PLATFORM_WIDTH) (prev.x + PLATFORM_WIDTH + 250)) := by
  intro np heq
  have hW100 : (100 : ℚ) ≤ W := by
    simpa [PLATFORM_WIDTH] using hW
  cases hl : s.platforms.getLast? with
  | none =>
      simp only [spawnPlatform, hl, spawnBody] at heq
      have hx : np.x = r1 * (W - PLATFORM_WIDTH - 0) + 0 := by
        have := List.append_cancel_left heq
        simp only [List.cons.injEq, and_true] at this
        rw [← this]
      constructor
      · constructor
        · rw [hx]
          have : 0 ≤ r1 * (W - PLATFORM_WIDTH - 0) := by
            apply mul_nonneg h0
            simp [PLATFORM_WIDTH]
            linarith
          linarith
        · rw [hx]
          have : r1 * (W - PLATFORM_WIDTH - 0) ≤ W - PLATFORM_WIDTH - 0 := by
            apply mul_le_of_le_one_left _ h1.le
            simp [PLATFORM_WIDTH]
            linarith
          linarith
      · intro prev hl2
        exact absurd hl2 (by simp)
  | some prev =>
      simp only [spawnPlatform, hl] at heq
      by_cases hcond : H - prev.y > s.nextSpawnDistance
      · rw [if_pos hcond] at heq
        simp only [spawnBody, hl] at heq
        obtain ⟨hpx0, hpx1⟩ := hprev prev hl
        have hx : np.x = r1 * (min (W - PLATFORM_WIDTH) (prev.x + PLATFORM_WIDTH + 250) -
            max 0 (prev.x - 250)) + max 0 (prev.x - 250) := by
          have := List.append_cancel_left heq
          simp only [List.cons.injEq, and_true] at this
          rw [← this]
        have hlow : max 0 (prev.x - 250) ≤ prev.x := by
          apply max_le hpx0
          linarith
        have hhigh : prev.x ≤ min (W - PLATFORM_WIDTH) (prev.x + PLATFORM_WIDTH + 250) := by
          apply le_min hpx1
          simp [PLATFORM_WIDTH]
          linarith
        have hab : max 0 (prev.x - 250) ≤
            min (W - PLATFORM_WIDTH) (prev.x + PLATFORM_WIDTH + 250) :=
          le_trans hlow hhigh
        have hxlow : max 0 (prev.x - 250) ≤ np.x := by
          rw [hx]
          have : 0 ≤ r1 * (min (W - PLATFORM_WIDTH) (prev.x + PLATFORM_WIDTH + 250) -
              max 0 (prev.x - 250)) := mul_nonneg h0 (by linarith)
          linarith
        have hxhigh : np.x ≤ min (W - PLATFORM_WIDTH) (prev.x + PLATFORM_WIDTH + 250) := by
          rw [hx]
          have : r1 * (min (W - PLATFORM_WIDTH) (prev.x + PLATFORM_WIDTH + 250) -
              max 0 (prev.x - 250)) ≤
              min (W - PLATFORM_WIDTH) (prev.x + PLATFORM_WIDTH + 250) -
              max 0 (prev.x - 250) :=
            mul_le_of_le_one_left (by linarith) h1.le
          linarith
        refine ⟨⟨le_trans (le_max_left 0 _) hxlow,
          le_trans hxhigh (min_le_left _ _)⟩, ?_⟩
        intro prev2 hl2
        simp only [Option.some.injEq] at hl2
        subst hl2
        exact ⟨hxlow, hxhigh⟩
      · rw [if_neg hcond] at heq
        have : s.platforms.length = s.platforms.length + 1 := by
          conv_lhs => rw [heq]
          simp
        omega

/-- Witness for C5: spawning from the empty platform list of the module
load state with r1 = 1/2 places the platform at x = 150 within [0, 300]. -/
theorem spawn_x_within_reach_witness :
    (0 : ℚ) ≤ 150 ∧ (150 : ℚ) ≤ 400 - PLATFORM_WIDTH :=
  ((spawn_x_within_reach 400 600 (1/2) 0 0 initState (by norm_num) (by norm_num)
      (by norm_num [PLATFORM_WIDTH])
      (fun prev h => absurd h (by simp [initState])))
    { x := 150, y := 600, width := 100, height := 15, type := PlatformType.NORMAL }
    (by norm_num [spawnPlatform, spawnBody, initState, PLATFORM_WIDTH, PLATFORM_HEIGHT,
      TYPE_PROBABILITIES_NORMAL, List.getLast?])).1

/-- The score after the spawn body is the old score plus one. -/
theorem spawnBody_score_eq (W H r1 r2 r3 : ℚ) (s : GameState) :
    (spawnBody W H r1 r2 r3 s).score = s.score + 1 := rfl

/-- The scroll speed after the spawn body, as the source's difficulty
step. -/
theorem spawnBody_speed_eq (W H r1 r2 r3 : ℚ) (s : GameState) :
    (spawnBody W H r1 r2 r3 s).currentPlatformSpeed =
      if 0 < s.score + 1 ∧ (s.score + 1) % DIFFICULTY_INTERVAL = 0
      then s.currentPlatformSpeed + GAME_SPEED_INCREMENT
      else s.currentPlatformSpeed := rfl

/-- The max gap after the spawn body, as the source's difficulty step. -/
theorem spawnBody_gap_eq (W H r1 r2 r3 : ℚ) (s : GameState) :
    (spawnBody W H r1 r2 r3 s).currentMaxYGap =
      if 0 < s.score + 1 ∧ (s.score + 1) % DIFFICULTY_INTERVAL = 0
      then s.currentMaxYGap + MAX_Y_GAP_INCREMENT
      else s.currentMaxYGap := rfl

/-- The scroll speed after a spawn attempt is never smaller than before. -/
theorem spawn_speed_mono (W H r1 r2 r3 : ℚ) (s : GameState) :
    s.currentPlatformSpeed ≤ (spawnPlatform W H r1 r2 r3 s).currentPlatformSpeed := by
  have hb : s.currentPlatformSpeed ≤ (spawnBody W H r1 r2 r3 s).currentPlatformSpeed := by
    rw [spawnBody_speed_eq]
    split
    · simp [GAME_SPEED_INCREMENT]
    · exact le_refl _
  cases hl : s.platforms.getLast? with
  | none =>
      simp only [spawnPlatform, hl]
      exact hb
  | some lp =>
      simp only [spawnPlatform, hl]
      by_cases hc : H - lp.y > s.nextSpawnDistance
      · rw [if_pos hc]
        exact hb
      · rw [if_neg hc]

/-- The max gap after a spawn attempt is never smaller than before. -/
theorem spawn_gap_mono (W H r1 r2 r3 : ℚ) (s : GameState) :
    s.currentMaxYGap ≤ (spawnPlatform W H r1 r2 r3 s).currentMaxYGap := by
  have hb : s.currentMaxYGap ≤ (spawnBody W H r1 r2 r3 s).currentMaxYGap := by
    rw [spawnBody_gap_eq]
    split
    · simp [MAX_Y_GAP_INCREMENT]
    · exact le_refl _
  cases hl : s.platforms.getLast? with
  | none =>
      simp only [spawnPlatform, hl]
      exact hb
  | some lp =>
      simp only [spawnPlatform, hl]
      by_cases hc : H - lp.y > s.nextSpawnDistance
      · rw [if_pos hc]
        exact hb
      · rw [if_neg hc]

/-- C7: difficulty scaling.  Either no spawn happens and the whole state is
unchanged, or the score is incremented by one and the scroll speed and max
gap each grow by their fixed increment exactly when the new score is a
positive multiple of DIFFICULTY_INTERVAL, staying unchanged otherwise;
moreover both quantities are non-decreasing across any tick. -/
theorem difficulty_step_exact (W H : ℚ) (ml mr : Bool) (r1 r2 r3 : ℚ) (s : GameState) :
    (spawnPlatform W H r1 r2 r3 s = s ∨
      ((spawnPlatform W H r1 r2 r3 s).score = s.score + 1 ∧
       ((0 < (spawnPlatform W H r1 r2 r3 s).score ∧
           (spawnPlatform W H r1 r2 r3 s).score % DIFFICULTY_INTERVAL = 0) →
         (spawnPlatform W H r1 r2 r3 s).currentPlatformSpeed
             = s.currentPlatformSpeed + GAME_SPEED_INCREMENT ∧
           (spawnPlatform W H r1 r2 r3 s).currentMaxYGap
             = s.currentMaxYGap + MAX_Y_GAP_INCREMENT) ∧
       (¬ (0 < (spawnPlatform W H r1 r2 r3 s).score ∧
           (spawnPlatform W H r1 r2 r3 s).score % DIFFICULTY_INTERVAL = 0) →
         (spawnPlatform W H r1 r2 r3 s).currentPlatformSpeed = s.currentPlatformSpeed ∧
           (spawnPlatform W H r1 r2 r3 s).currentMaxYGap = s.currentMaxYGap))) ∧
    s.currentPlatformSpeed ≤ (tick W H ml mr r1 r2 r3 s).currentPlatformSpeed ∧
    s.currentMaxYGap ≤ (tick W H ml mr r1 r2 r3 s).currentMaxYGap := by
  constructor
  · have hbody : (spawnPlatform W H r1 r2 r3 s = s) ∨
        spawnPlatform W H r1 r2 r3 s = spawnBody W H r1 r2 r3 s := by
      cases hl : s.platforms.getLast? with
      | none =>
          simp only [spawnPlatform, hl]
          exact Or.inr trivial
      | some lp =>
          simp only [spawnPlatform, hl]
          by_cases hc : H - lp.y > s.nextSpawnDistance
          · rw [if_pos hc]
            exact Or.inr rfl
          · rw [if_neg hc]
            exact Or.inl rfl
    rcases hbody with hb | hb
    · exact Or.inl hb
    · refine Or.inr ⟨by rw [hb, spawnBody_score_eq], ?_, ?_⟩
      · intro hc
        rw [hb, spawnBody_score_eq] at hc
        rw [hb, spawnBody_speed_eq, spawnBody_gap_eq, if_pos hc, if_pos hc]
        exact ⟨rfl, rfl⟩
      · intro hc
        rw [hb, spawnBody_score_eq] at hc
        rw [hb, spawnBody_speed_eq, spawnBody_gap_eq, if_neg hc, if_neg hc]
        exact ⟨rfl, rfl⟩
  · cases hgo : s.isGameOver with
    | true => simp [tick, hgo]
    | false =>
        constructor
        · simp only [tick, hgo, Bool.false_eq_true, if_false]
          exact spawn_speed_mono _ _ _ _ _ _
        · simp only [tick, hgo, Bool.false_eq_true, if_false]
          exact spawn_gap_mono _ _ _ _ _ _

/-- Witness for C7: the full statement instantiated at the module load
state with concrete screen, inputs and draws. -/
theorem difficulty_step_exact_witness :
    (spawnPlatform 400 600 (1/2) 0 0 initState = initState ∨
      ((spawnPlatform 400 600 (1/2) 0 0 initState).score = initState.score + 1 ∧
       ((0 < (spawnPlatform 400 600 (1/2) 0 0 initState).score ∧
           (spawnPlatform 400 600 (1/2) 0 0 initState).score % DIFFICULTY_INTERVAL = 0) →
         (spawnPlatform 400 600 (1/2) 0 0 initState).currentPlatformSpeed
             = initState.currentPlatformSpeed + GAME_SPEED_INCREMENT ∧
           (spawnPlatform 400 600 (1/2) 0 0 initState).currentMaxYGap
             = initState.currentMaxYGap + MAX_Y_GAP_INCREMENT) ∧
       (¬ (0 < (spawnPlatform 400 600 (1/2) 0 0 initState).score ∧
           (spawnPlatform 400 600 (1/2) 0 0 initState).score % DIFFICULTY_INTERVAL = 0) →
         (spawnPlatform 400 600 (1/2) 0 0 initState).currentPlatformSpeed
             = initState.currentPlatformSpeed ∧
           (spawnPlatform 400 600 (1/2) 0 0 initState).currentMaxYGap
             = initState.currentMaxYGap))) ∧
    initState.currentPlatformSpeed ≤
      (tick 400 600 false false (1/2) 0 0 initState).currentPlatformSpeed ∧
    initState.currentMaxYGap ≤
      (tick 400 600 false false (1/2) 0 0 initState).currentMaxYGap :=
  difficulty_step_exact 400 600 false false (1/2) 0 0 initState

/-- The platform list left by the loop is the scrolled input list with the
culled platforms filtered out, in order. -/
theorem platLoop_snd (H speed : ℚ) (st : Player × Bool) (l : List Platform) :
    (platLoop H speed st l).2 = (l.map (scrollP speed)).filter keepPlat := by
  induction l with
  | nil => rfl
  | cons p ps ih =>
      simp only [platLoop, List.map_cons]
      by_cases hc : (scrollP speed p).y + (scrollP speed p).height < 0
      · rw [if_pos hc, List.filter_cons_of_neg (by simp [keepPlat, hc])]
        exact ih
      · rw [if_neg hc, List.filter_cons_of_pos (by simp [keepPlat, hc])]
        exact congrArg (List.cons (scrollP speed p)) ih

/-- Filtering a list by a predicate that is monotone along the list keeps a
suffix: the result is a drop. -/
theorem filter_eq_drop_of_mono {α : Type} (P : α → Bool) :
    ∀ l : List α, l.Pairwise (fun a b => P a = true → P b = true) →
      ∃ k, l.filter P = l.drop k := by
  intro l
  induction l with
  | nil => exact fun _ => ⟨0, rfl⟩
  | cons a l ih =>
      intro hp
      by_cases ha : P a = true
      · refine ⟨0, ?_⟩
        rw [List.drop_zero, List.filter_cons_of_pos ha]
        congr 1
        rw [List.filter_eq_self]
        intro b hb
        exact (List.pairwise_cons.1 hp).1 b hb ha
      · obtain ⟨k, hk⟩ := ih (List.pairwise_cons.1 hp).2
        refine ⟨k + 1, ?_⟩
        rw [List.filter_cons_of_neg (by simpa using ha), List.drop_succ_cons]
        exact hk

/-- Dropping from the front does not change the last element of a list, as
long as something is left. -/
theorem getLast?_drop_of_ne_nil {α : Type} :
    ∀ (l : List α) (k : ℕ), l.drop k ≠ [] → (l.drop k).getLast? = l.getLast? := by
  intro l
  induction l with
  | nil =>
      intro k h
      simp at h
  | cons a l ih =>
      intro k h
      cases k with
      | zero => rfl
      | succ k =>
          rw [List.drop_succ_cons] at h ⊢
          rw [ih k h]
          cases l with
          | nil =>
              simp at h
          | cons b l2 => rw [List.getLast?_cons_cons]

/-- Two platforms are not both of the SPIKE variant. -/
def notBothSpike (a b : Platform) : Prop :=
  ¬ (a.type = PlatformType.SPIKE ∧ b.type = PlatformType.SPIKE)

/-- The generator/physics invariant carried through every reachable state:
no two adjacent platforms (in spawn order) are SPIKEs, the list is sorted
by y (oldest platforms are highest up), every platform has the fixed
height and sits at or above the spawn line y = H, a SPIKE last platform is
witnessed by the hazard counter, the counter never exceeds 1, and the
scroll speed is non-negative. -/
def Inv (H : ℚ) (s : GameState) : Prop :=
  List.Chain' notBothSpike s.platforms ∧
  List.Pairwise (fun a b : Platform => a.y ≤ b.y) s.platforms ∧
  (∀ p ∈ s.platforms, p.height = PLATFORM_HEIGHT) ∧
  (∀ p ∈ s.platforms, p.y ≤ H) ∧
  (∀ p : Platform, s.platforms.getLast? = some p → p.type = PlatformType.SPIKE →
    1 ≤ s.consecutiveSpikes) ∧
  s.consecutiveSpikes ≤ 1 ∧
  0 ≤ s.currentPlatformSpeed

/-- resetGame establishes the invariant whenever the seed platform's y
(500) is on or above the spawn line. -/
theorem inv_resetGame (H : ℚ) (s : GameState) (hH : 500 ≤ H) : Inv H (resetGame s) := by
  refine ⟨?_, ?_, ?_, ?_, ?_, ?_, ?_⟩
  · exact List.chain'_singleton _
  · simp [resetGame]
  · intro p hp
    simp [resetGame] at hp
    rw [hp]
  · intro p hp
    simp [resetGame] at hp
    rw [hp]
    exact hH
  · intro p hp ht
    simp [resetGame] at hp
    rw [← hp] at ht
    exact absurd ht (by simp)
  · simp [resetGame]
  · simp [resetGame, INITIAL_SPEED]

/-- The spawn body preserves the invariant. -/
theorem inv_spawnBody (W H r1 r2 r3 : ℚ) (s : GameState) (h : Inv H s) :
    Inv H (spawnBody W H r1 r2 r3 s) := by
  obtain ⟨hch, hsort, hht, hyH, hlast, hcnt, hsp⟩ := h
  have htn : (if 1 ≤ s.consecutiveSpikes then PlatformType.NORMAL
      else if TYPE_PROBABILITIES_NORMAL < r2 then PlatformType.SPIKE
      else PlatformType.NORMAL) = PlatformType.SPIKE → s.consecutiveSpikes = 0 := by
    intro ht
    by_cases h1 : 1 ≤ s.consecutiveSpikes
    · rw [if_pos h1] at ht
      exact absurd ht (by simp)
    · omega
  refine ⟨?_, ?_, ?_, ?_, ?_, ?_, ?_⟩
  · show List.Chain' notBothSpike (s.platforms ++ [_])
    refine List.chain'_append.2 ⟨hch, List.chain'_singleton _, ?_⟩
    intro a ha b hb
    simp only [List.head?_cons, Option.mem_def, Option.some.injEq] at hb
    subst hb
    rintro ⟨haS, hbS⟩
    have hc0 := htn hbS
    have := hlast a (Option.mem_def.1 ha) haS
    omega
  · show List.Pairwise _ (s.platforms ++ [_])
    refine List.pairwise_append.2 ⟨hsort, List.pairwise_singleton _ _, ?_⟩
    intro a ha b hb
    simp only [List.mem_singleton] at hb
    subst hb
    exact hyH a ha
  · intro p hp
    rcases List.mem_append.1 hp with hp | hp
    · exact hht p hp
    · simp only [List.mem_singleton] at hp
      rw [hp]
  · intro p hp
    rcases List.mem_append.1 hp with hp | hp
    · exact hyH p hp
    · simp only [List.mem_singleton] at hp
      rw [hp]
  · intro p hp ht
    rw [show (spawnBody W H r1 r2 r3 s).platforms = s.platforms ++ [_] from rfl,
      List.getLast?_concat] at hp
    simp only [Option.some.injEq] at hp
    subst hp
    show 1 ≤ (if (if 1 ≤ s.consecutiveSpikes then PlatformType.NORMAL
      else if TYPE_PROBABILITIES_NORMAL < r2 then PlatformType.SPIKE
      else PlatformType.NORMAL) = PlatformType.SPIKE then s.consecutiveSpikes + 1 else 0)
    rw [if_pos ht]
    omega
  · show (if (if 1 ≤ s.consecutiveSpikes then PlatformType.NORMAL
      else if TYPE_PROBABILITIES_NORMAL < r2 then PlatformType.SPIKE
      else PlatformType.NORMAL) = PlatformType.SPIKE then s.consecutiveSpikes + 1 else 0) ≤ 1
    by_cases h1 : 1 ≤ s.consecutiveSpikes
    · rw [if_pos h1, if_neg (by simp)]
      omega
    · rw [if_neg h1]
      by_cases h2 : TYPE_PROBABILITIES_NORMAL < r2
      · rw [if_pos h2, if_pos rfl]
        omega
      · rw [if_neg h2, if_neg (by simp)]
        omega
  · rw [show (spawnBody W H r1 r2 r3 s).currentPlatformSpeed = _ from
      spawnBody_speed_eq W H r1 r2 r3 s]
    split
    · simp only [GAME_SPEED_INCREMENT]
      linarith
    · exact hsp

/-- The spawn attempt preserves the invariant. -/
theorem inv_spawnPlatform (W H r1 r2 r3 : ℚ) (s : GameState) (h : Inv H s) :
    Inv H (spawnPlatform W H r1 r2 r3 s) := by
  cases hl : s.platforms.getLast? with
  | none =>
      simp only [spawnPlatform, hl]
      exact inv_spawnBody W H r1 r2 r3 s h
  | some lp =>
      simp only [spawnPlatform, hl]
      by_cases hc : H - lp.y > s.nextSpawnDistance
      · rw [if_pos hc]
        exact inv_spawnBody W H r1 r2 r3 s h
      · rw [if_neg hc]
        exact h

/-- Replacing the player, the game-over flag and the platform list by the
scrolled-and-culled list preserves the invariant. -/
theorem inv_loopResult (H : ℚ) (s : GameState) (pl : Player) (go : Bool) (h : Inv H s) :
    Inv H { s with
      player := pl
      isGameOver := go
      platforms := (s.platforms.map (scrollP s.currentPlatformSpeed)).filter keepPlat } := by
  obtain ⟨hch, hsort, hht, hyH, hlast, hcnt, hsp⟩ := h
  have hht1 : ∀ p ∈ s.platforms.map (scrollP s.currentPlatformSpeed),
      p.height = PLATFORM_HEIGHT := by
    intro p hp
    obtain ⟨q, hq, rfl⟩ := List.mem_map.1 hp
    exact hht q hq
  have hsort1 : (s.platforms.map (scrollP s.currentPlatformSpeed)).Pairwise
      (fun a b : Platform => a.y ≤ b.y) := by
    rw [List.pairwise_map]
    refine hsort.imp ?_
    intro a b hab
    simp only [scrollP]
    linarith
  have hch1 : List.Chain' notBothSpike (s.platforms.map (scrollP s.currentPlatformSpeed)) := by
    rw [List.chain'_map]
    refine hch.imp ?_
    intro a b hab
    simpa [notBothSpike, scrollP] using hab
  have hmono : (s.platforms.map (scrollP s.currentPlatformSpeed)).Pairwise
      (fun a b : Platform => keepPlat a = true → keepPlat b = true) := by
    refine List.Pairwise.imp_of_mem ?_ hsort1
    intro a b ha hb hab hka
    have h15a := hht1 a ha
    have h15b := hht1 b hb
    simp only [keepPlat, decide_eq_true_eq, not_lt] at hka ⊢
    rw [h15b]
    rw [h15a] at hka
    linarith
  obtain ⟨k, hk⟩ := filter_eq_drop_of_mono keepPlat _ hmono
  refine ⟨?_, ?_, ?_, ?_, ?_, ?_, ?_⟩
  · show List.Chain' notBothSpike ((s.platforms.map _).filter keepPlat)
    rw [hk]
    exact hch1.suffix (List.drop_suffix k _)
  · exact hsort1.filter keepPlat
  · intro p hp
    exact hht1 p (List.mem_of_mem_filter hp)
  · intro p hp
    obtain ⟨q, hq, rfl⟩ := List.mem_map.1 (List.mem_of_mem_filter hp)
    show q.y - s.currentPlatformSpeed ≤ H
    have := hyH q hq
    linarith
  · intro p hp hS
    show 1 ≤ s.consecutiveSpikes
    rw [hk] at hp
    have hne : (s.platforms.map (scrollP s.currentPlatformSpeed)).drop k ≠ [] := by
      intro he
      rw [he] at hp
      simp at hp
    rw [getLast?_drop_of_ne_nil _ k hne, List.getLast?_map] at hp
    cases hq : s.platforms.getLast? with
    | none =>
        rw [hq] at hp
        simp at hp
    | some q =>
        rw [hq] at hp
        simp only [Option.map_some', Option.some.injEq] at hp
        refine hlast q hq ?_
        rw [← hp] at hS
        exact hS
  · exact hcnt
  · exact hsp

/-- The movement/gravity phase touches only the player and preserves the
invariant. -/
theorem inv_movePhase (W H : ℚ) (ml mr : Bool) (s : GameState) (h : Inv H s) :
    Inv H (movePhase W ml mr s) := h

/-- The platform loop phase preserves the invariant. -/
theorem inv_loopPhase (H : ℚ) (s : GameState) (h : Inv H s) : Inv H (loopPhase H s) := by
  have h2 := inv_loopResult H s
    (platLoop H s.currentPlatformSpeed
      ({ s.player with onGround := false }, s.isGameOver) s.platforms).1.1
    (platLoop H s.currentPlatformSpeed
      ({ s.player with onGround := false }, s.isGameOver) s.platforms).1.2 h
  rw [← platLoop_snd H s.currentPlatformSpeed
    ({ s.player with onGround := false }, s.isGameOver) s.platforms] at h2
  exact h2

/-- One tick preserves the invariant. -/
theorem inv_tick (W H : ℚ) (ml mr : Bool) (r1 r2 r3 : ℚ) (s : GameState) (h : Inv H s) :
    Inv H (tick W H ml mr r1 r2 r3 s) := by
  cases hgo : s.isGameOver with
  | true =>
      simpa [tick, hgo] using h
  | false =>
      have : tick W H ml mr r1 r2 r3 s =
          loopPhase H (spawnPlatform W H r1 r2 r3 (movePhase W ml mr s)) := by
        simp [tick, hgo]
      rw [this]
      exact inv_loopPhase H _ (inv_spawnPlatform W H r1 r2 r3 _ (inv_movePhase W H ml mr s h))

/-- Every reachable state satisfies the invariant, for a canvas that is at
least as tall as the seed platform's y. -/
theorem reachable_inv (W H : ℚ) (s : GameState) (hH : 500 ≤ H) (hr : Reachable W H s) :
    Inv H s := by
  induction hr with
  | start => exact inv_resetGame H initState hH
  | reset _ _ => exact inv_resetGame H _ hH
  | step ml mr r1 r2 r3 _ ih => exact inv_tick W H ml mr r1 r2 r3 _ ih

/-- The type of a platform actually appended by a spawn attempt, read off
from the generator's type-selection step. -/
theorem spawn_appended_type (W H r1 r2 r3 : ℚ) (s : GameState) (np : Platform)
    (heq : (spawnPlatform W H r1 r2 r3 s).platforms = s.platforms ++ [np]) :
    np.type = if 1 ≤ s.consecutiveSpikes then PlatformType.NORMAL
      else if TYPE_PROBABILITIES_NORMAL < r2 then PlatformType.SPIKE
      else PlatformType.NORMAL := by
  cases hl : s.platforms.getLast? with
  | none =>
      simp only [spawnPlatform, hl, spawnBody] at heq
      have := List.append_cancel_left heq
      simp only [List.cons.injEq, and_true] at this
      rw [← this]
  | some lp =>
      simp only [spawnPlatform, hl] at heq
      by_cases hc : H - lp.y > s.nextSpawnDistance
      · rw [if_pos hc] at heq
        simp only [spawnBody, hl] at heq
        have := List.append_cancel_left heq
        simp only [List.cons.injEq, and_true] at this
        rw [← this]
      · rw [if_neg hc] at heq
        have : s.platforms.length = s.platforms.length + 1 := by
          conv_lhs => rw [heq]
          simp
        omega

/-- C6: in every reachable world state no two consecutively spawned
platforms are both hazards, and whenever the consecutive-hazard counter is
at least 1 every platform the generator actually appends is NORMAL. -/
theorem no_consecutive_hazards (W H : ℚ) (s : GameState) (hH : 500 ≤ H)
    (hr : Reachable W H s) :
    List.Chain' notBothSpike s.platforms ∧
    (∀ (W2 H2 q1 q2 q3 : ℚ) (np : Platform), 1 ≤ s.consecutiveSpikes →
      (spawnPlatform W2 H2 q1 q2 q3 s).platforms = s.platforms ++ [np] →
      np.type = PlatformType.NORMAL) := by
  refine ⟨(reachable_inv W H s hH hr).1, ?_⟩
  intro W2 H2 q1 q2 q3 np hc heq
  rw [spawn_appended_type W2 H2 q1 q2 q3 s np heq, if_pos hc]

/-- Witness for C6 at the freshly reset state of a 400×600 canvas. -/
theorem no_consecutive_hazards_witness :
    List.Chain' notBothSpike (resetGame initState).platforms :=
  (no_consecutive_hazards 400 600 (resetGame initState) (by norm_num) Reachable.start).1

/-- The counter produced by the spawn body never exceeds 1: it leaves 0
except when a SPIKE is drawn, which requires the old counter to be 0. -/
theorem spawnBody_consec_le_one (W H r1 r2 r3 : ℚ) (s : GameState) :
    (spawnBody W H r1 r2 r3 s).consecutiveSpikes ≤ 1 := by
  show (if (if 1 ≤ s.consecutiveSpikes then PlatformType.NORMAL
    else if TYPE_PROBABILITIES_NORMAL < r2 then PlatformType.SPIKE
    else PlatformType.NORMAL) = PlatformType.SPIKE then s.consecutiveSpikes + 1 else 0) ≤ 1
  by_cases h1 : 1 ≤ s.consecutiveSpikes
  · rw [if_pos h1, if_neg (by simp)]
    omega
  · rw [if_neg h1]
    by_cases h2 : TYPE_PROBABILITIES_NORMAL < r2
    · rw [if_pos h2, if_pos rfl]
      omega
    · rw [if_neg h2, if_neg (by simp)]
      omega

/-- One tick keeps the consecutive-hazard counter at or below 1. -/
theorem tick_consec_le_one (W H : ℚ) (ml mr : Bool) (r1 r2 r3 : ℚ) (s : GameState)
    (h : s.consecutiveSpikes ≤ 1) :
    (tick W H ml mr r1 r2 r3 s).consecutiveSpikes ≤ 1 := by
  cases hgo : s.isGameOver with
  | true => simpa [tick, hgo] using h
  | false =>
      have ht : tick W H ml mr r1 r2 r3 s =
          loopPhase H (spawnPlatform W H r1 r2 r3 (movePhase W ml mr s)) := by
        simp [tick, hgo]
      rw [ht]
      show (spawnPlatform W H r1 r2 r3 (movePhase W ml mr s)).consecutiveSpikes ≤ 1
      cases hl : (movePhase W ml mr s).platforms.getLast? with
      | none =>
          simp only [spawnPlatform, hl]
          exact spawnBody_consec_le_one W H r1 r2 r3 _
      | some lp =>
          simp only [spawnPlatform, hl]
          by_cases hc : H - lp.y > (movePhase W ml mr s).nextSpawnDistance
          · rw [if_pos hc]
            exact spawnBody_consec_le_one W H r1 r2 r3 _
          · rw [if_neg hc]
            exact h

/-- In every reachable state the consecutive-hazard counter is at most 1. -/
theorem reachable_consec_le_one (W H : ℚ) (s : GameState) (hr : Reachable W H s) :
    s.consecutiveSpikes ≤ 1 := by
  induction hr with
  | start => simp [resetGame]
  | reset _ _ => simp [resetGame]
  | step ml mr r1 r2 r3 _ ih => exact tick_consec_le_one W H ml mr r1 r2 r3 _ ih

/-- C10: in every reachable state the consecutive-hazard counter is 0 or 1,
and whenever it is at least 1 any spawn attempt either does nothing or
resets the counter to 0 (the forced-NORMAL platform). -/
theorem consecutive_counter_le_one (W H : ℚ) (s : GameState) (hr : Reachable W H s) :
    (s.consecutiveSpikes = 0 ∨ s.consecutiveSpikes = 1) ∧
    (∀ W2 H2 q1 q2 q3 : ℚ, 1 ≤ s.consecutiveSpikes →
      spawnPlatform W2 H2 q1 q2 q3 s = s ∨
        (spawnPlatform W2 H2 q1 q2 q3 s).consecutiveSpikes = 0) := by
  constructor
  · have := reachable_consec_le_one W H s hr
    omega
  · intro W2 H2 q1 q2 q3 hc
    have hzero : (spawnBody W2 H2 q1 q2 q3 s).consecutiveSpikes = 0 := by
      show (if (if 1 ≤ s.consecutiveSpikes then PlatformType.NORMAL
        else if TYPE_PROBABILITIES_NORMAL < q2 then PlatformType.SPIKE
        else PlatformType.NORMAL) = PlatformType.SPIKE then s.consecutiveSpikes + 1 else 0) = 0
      rw [if_pos hc, if_neg (by simp)]
    cases hl : s.platforms.getLast? with
    | none =>
        simp only [spawnPlatform, hl]
        exact Or.inr hzero
    | some lp =>
        simp only [spawnPlatform, hl]
        by_cases hcnd : H2 - lp.y > s.nextSpawnDistance
        · rw [if_pos hcnd]
          exact Or.inr hzero
        · rw [if_neg hcnd]
          exact Or.inl rfl

/-- Witness for C10 at the freshly reset state. -/
theorem consecutive_counter_le_one_witness :
    (resetGame initState).consecutiveSpikes = 0 ∨
      (resetGame initState).consecutiveSpikes = 1 :=
  (consecutive_counter_le_one 400 600 (resetGame initState) Reachable.start).1

end StairClimber
